import Mathlib

/-!
Shallow embedding of `x/programs/cmd/simulator/cmd/plan.go` (hypersdk):
the plan step execution engine — step loading (`Init`), step validation
(`Verify` / `verifyEndpoint`), parameter resolution (`createCallParams`),
endpoint dispatch (`runStepFunc`) and the orchestrating `RunStep`.

Go byte strings are modelled as `List Nat` (a Go `string` is a byte
sequence).  External collaborators — the program loader, the program
interpreter, filesystem access and the fresh-key generator — are oracle
fields of the `Ext` structure; collaborators whose code is not part of the
embedded source (the key store, the `Response` record, the step
unmarshaller) are modelled from the specification and marked as such in
their doc comments.
-/

namespace PlanSim

/-- Parameter type tags of the simulator plan (the values referenced by `plan.go`). -/
inductive ParamType where
  | string
  | id
  | keyEd25519
  | keySecp256k1
  | uint64
  | bool
deriving DecidableEq

/-- `Endpoint` is a string-typed enum in Go; `other` models any unknown endpoint
string, reaching the `default` case of the Go switches. -/
inductive Endpoint where
  | key
  | execute
  | readOnly
  | other (s : List Nat)
deriving DecidableEq

/-- A step parameter: a type tag and an opaque byte value. -/
structure Parameter where
  type : ParamType
  value : List Nat
deriving DecidableEq

/-- One plan step.  `params = none` models a nil Go slice, `some []` an
empty non-nil one (the two are distinguished by `Verify`). -/
structure Step where
  endpoint : Endpoint
  method : List Nat
  maxUnits : Nat
  params : Option (List Parameter)
deriving DecidableEq

/-- The sentinel method name denoting program creation (`ProgramCreate`).
Its concrete byte value is defined outside the embedded file; only equality
with it matters. -/
def ProgramCreate : List Nat := [112, 99]

/-- `strconv.ParseInt` failure kinds (syntax error / value out of range). -/
inductive ParseIntE where
  | synE
  | rangeE
deriving DecidableEq

/-- Qualifier wrapped into first-parameter type errors
(`ErrFirstParamRequiredID` / `ErrFirstParamRequiredString`). -/
inductive ParamQual where
  | requiredID
  | requiredString
deriving DecidableEq

/-- The two MalformedPlan situations of step loading: no plan source
supplied, or an unparsable payload. -/
inductive PlanSrcErr where
  | noSource
  | unparsable
deriving DecidableEq

/-- Error values produced by the engine.  `indexOutOfRange` models a Go
index-out-of-range runtime panic (a total embedding must make that branch
explicit).  `externalErr` stands for opaque errors of external collaborators. -/
inductive GoErr where
  | invalidPlanNoSteps
  | invalidStepNoParams
  | invalidStepParamType (i : Nat) (q : Option ParamQual)
  | invalidEndpoint (s : List Nat)
  | indexOutOfRange
  | parseIntErr (e : ParseIntE)
  | unresolvedStepReference (s : List Nat)
  | pathNotExist
  | namedKeyNotFound (k : List Nat)
  | invalidParamType (t : ParamType)
  | invalidIDLength (n : Nat)
  | multiResponseNotSupported
  | duplicateKeyName
  | malformedPlan (r : PlanSrcErr)
  | externalErr (n : Nat)
deriving DecidableEq

/-- avalanchego `ids.ID`: a fixed 32-byte identifier (`[32]byte`). -/
abbrev GoID := { l : List Nat // l.length = 32 }

/-- An ed25519 public key, a byte sequence (32 bytes in practice). -/
abbrev PubKey := List Nat

/-- The key store's state visible to this core: named public keys.
The mutable state store is only read/written through the key-store
collaborators here, so this is the part of `db` the embedding tracks. -/
abbrev DB := List (List Nat × PubKey)

/-- The Run Ledger (`programIDStrMap`): step index (an `int`, the result of
`int(id)` on a parsed 32-bit value) to generated identifier. -/
abbrev Ledger := List (Int × GoID)

/-- Modelled from the spec: the per-step `Response` record (its Go
definition is not among the embedded sources) — step index, optional
message, optional generated identifier, optional single result payload,
optional balance, optional error, completion timestamp.  The identifier is
stored as a `GoID`: avalanchego's `ID.String` and `ids.FromString` are
mutually inverse on 32-byte identifiers, so the string form is modelled by
the identifier itself. -/
structure Response where
  id : Nat
  msg : Option (List Nat) := none
  txID : Option GoID := none
  result : Option (List Nat) := none
  balance : Option Nat := none
  err : Option GoErr := none
  timestamp : Option Nat := none
deriving DecidableEq

/-- `newResponse(id)`. -/
def newResponse (id : Nat) : Response := { id := id }

/-- `resp.setError`. -/
def Response.setError (r : Response) (e : GoErr) : Response := { r with err := some e }

/-- `resp.setMsg`. -/
def Response.setMsg (r : Response) (m : List Nat) : Response := { r with msg := some m }

/-- `resp.setTxID(id.String())`, with the string form modelled by the ID itself. -/
def Response.setTxID (r : Response) (t : GoID) : Response := { r with txID := some t }

/-- `resp.setBalance`. -/
def Response.setBalance (r : Response) (b : Nat) : Response := { r with balance := some b }

/-- `resp.setResponse`. -/
def Response.setResponse (r : Response) (x : List Nat) : Response := { r with result := some x }

/-- `resp.setTimestamp`. -/
def Response.setTimestamp (r : Response) (t : Nat) : Response := { r with timestamp := some t }

/-- `resp.getTxID()`: the stored identifier, `none` when not set. -/
def Response.getTxID (r : Response) : Option GoID := r.txID

/-- `ids.FromString` applied to a string produced by `ID.String`: always
succeeds with the same identifier (the external CB58 encode/decode are
mutually inverse); the error branch of the Go call is kept in `RunStep`'s
structure but is unreachable. -/
def idsFromString (t : GoID) : Except GoErr GoID := .ok t

/-- `ids.ToID(b)`: succeeds exactly on 32-byte inputs. -/
def idsToID (b : List Nat) : Except GoErr GoID :=
  if h : b.length = 32 then .ok ⟨b, h⟩ else .error (.invalidIDLength b.length)

/-- External collaborators invoked by dispatch and resolution: the program
loader (`programCreateFunc`), the program interpreter
(`programExecuteFunc`), the `os.Stat` existence probe, the key store's
fresh-key generator, and `os.ReadFile`. -/
structure Ext where
  programCreate : DB → List Nat → Except GoErr (DB × GoID)
  programExecute : DB → GoID → List Parameter → List Nat → Nat →
    Except GoErr (DB × GoID × List (Option (List Nat)) × Nat)
  statErrIsNotExist : List Nat → Bool
  freshKey : DB → PubKey
  fileRead : List Nat → Except GoErr (List Nat)

/-- `math.MaxUint64`. -/
def maxUint64 : Nat := 2 ^ 64 - 1

/-- `codec.AddressLen` (33: one type-prefix byte plus a 32-byte key). -/
def AddressLen : Nat := 33

/-- Go `copy` into a zero-initialised buffer of length `n`: the first
`min n xs.length` bytes of `xs`, zero-padded to length `n`. -/
def takeFill (n : Nat) (xs : List Nat) : List Nat :=
  xs.take n ++ List.replicate (n - xs.length) 0

/-- The address bytes built in `createCallParams`:
`address := make([]byte, codec.AddressLen); address[0] = 0; copy(address[1:], pk)`. -/
def goAddress (pk : PubKey) : List Nat := 0 :: takeFill (AddressLen - 1) pk

/-- Modelled from the spec: `utils.Address` renders the derived address of a
public key (a deterministic function of the key); modelled as the derived
address bytes themselves. -/
def utilsAddress (pk : PubKey) : List Nat := goAddress pk

/-- The bytes of the message written by the Key endpoint:
`"created named key with address " + utils.Address(key)`; the fixed text is
modelled by a tag byte. -/
def keyMsg (pk : PubKey) : List Nat := 107 :: utilsAddress pk

/-- The bytes of the text `step_`. -/
def stepPrefixBytes : List Nat := [115, 116, 101, 112, 95]

/-- `strings.CutPrefix s pre`: `some` of the remainder when `pre` leads `s`. -/
def cutPrefixGo : List Nat → List Nat → Option (List Nat)
  | s, [] => some s
  | [], _ :: _ => none
  | a :: s, b :: p => if a = b then cutPrefixGo s p else none

/-- Decimal digit value of a byte, `none` when not `'0'..'9'`. -/
def digitVal (b : Nat) : Option Nat :=
  if 48 ≤ b ∧ b ≤ 57 then some (b - 48) else none

/-- Accumulating decimal reading of a byte list; `none` on any non-digit. -/
def digitsToNatAux : List Nat → Nat → Option Nat
  | [], acc => some acc
  | b :: rest, acc =>
    match digitVal b with
    | none => none
    | some d => digitsToNatAux rest (acc * 10 + d)

/-- `strconv.ParseInt(s, 10, 32)` on a byte string:  an optional sign
(`'-'` = 45, `'+'` = 43), then one or more decimal digits, with the value
required to fit in a signed 32-bit integer. -/
def parseInt32 (s : List Nat) : Except ParseIntE Int :=
  let signed : Bool × List Nat :=
    match s with
    | c :: rest => if c = 45 then (true, rest) else if c = 43 then (false, rest) else (false, s)
    | [] => (false, s)
  match signed.2 with
  | [] => .error .synE
  | ds =>
    match digitsToNatAux ds 0 with
    | none => .error .synE
    | some n =>
      let v : Int := if signed.1 then -(n : Int) else (n : Int)
      if v < -(2 ^ 31) ∨ 2 ^ 31 - 1 < v then .error .rangeE else .ok v

/-- Modelled from the spec: the key store's
`getPublicKey(store, name) -> (publicKey, found, error)` — a pure lookup of
the named key in the store, which itself never errors. -/
def storageGetPublicKey (db : DB) (name : List Nat) : Except GoErr (Option PubKey) :=
  .ok (db.lookup name)

/-- Modelled from the spec: the key store's
`createNamedKey(store, name) -> (publicKey, error|AlreadyExists)` — when the
name already exists it returns the existing key with the AlreadyExists
error; otherwise it stores and returns a fresh key. -/
def keyCreateFunc (db : DB) (name : List Nat) (fresh : PubKey) :
    DB × PubKey × Option GoErr :=
  match db.lookup name with
  | some pk => (db, pk, some .duplicateKeyName)
  | none => ((name, fresh) :: db, fresh, none)

/-- `createCallParams`: rewrites raw parameters to engine-ready ones,
preserving order and count, resolving `step_N` references against the Run
Ledger and named keys against the key store. -/
def createCallParams (ext : Ext) (ledger : Ledger) (db : DB) (endpoint : Endpoint) :
    List Parameter → Except GoErr (List Parameter)
  | [] => .ok []
  | param :: rest =>
    match param.type with
    | .string | .id =>
      match cutPrefixGo param.value stepPrefixBytes with
      | some idString =>
        match parseInt32 idString with
        | .error e => .error (.parseIntErr e)
        | .ok n =>
          match ledger.lookup n with
          | none => .error (.unresolvedStepReference param.value)
          | some programID =>
            (createCallParams ext ledger db endpoint rest).map
              (fun cp => { type := param.type, value := programID.val } :: cp)
      | none =>
        match idsToID param.value with
        | .ok programID =>
          (createCallParams ext ledger db endpoint rest).map
            (fun cp => { type := param.type, value := programID.val } :: cp)
        | .error _ =>
          if ext.statErrIsNotExist param.value then
            .error .pathNotExist
          else
            (createCallParams ext ledger db endpoint rest).map (fun cp => param :: cp)
    | .keyEd25519 =>
      match storageGetPublicKey db param.value with
      | .error e => .error e
      | .ok pkOpt =>
        if pkOpt.isNone ∧ endpoint ≠ Endpoint.key then
          .error (.namedKeyNotFound param.value)
        else
          -- the source's second `if err != nil` here is unreachable: err was
          -- already returned above
          let key := match pkOpt with
            | some pk => goAddress pk
            | none => param.value
          (createCallParams ext ledger db endpoint rest).map
            (fun cp => { type := param.type, value := key } :: cp)
    | .uint64 | .bool =>
      (createCallParams ext ledger db endpoint rest).map (fun cp => param :: cp)
    | .keySecp256k1 =>
      -- the Go `default:` branch: the only parameter type without a case
      .error (.invalidParamType ParamType.keySecp256k1)

/-- The body of `runStepFunc` before the deferred timestamp: dispatch on the
endpoint, returning the (possibly mutated) store, the updated response and
the returned error.  Go `params[0]` / `response[0]` accesses are modelled
totally, with the empty case as `indexOutOfRange`. -/
def runStepFuncCore (ext : Ext) (now : Nat) (db : DB) (endpoint : Endpoint)
    (maxUnits : Nat) (method : List Nat) (params : List Parameter)
    (resp : Response) : DB × Response × Option GoErr :=
  match endpoint with
  | .key =>
    match params.head? with
    | none => (db, resp, some .indexOutOfRange)
    | some p0 =>
      match keyCreateFunc db p0.value (ext.freshKey db) with
      | (db2, key, e?) =>
        if e? = some GoErr.duplicateKeyName then
          -- log.Debug("key already exists"); tolerated as success
          (db2, resp.setMsg (keyMsg key), none)
        else
          match e? with
          | some e => (db2, resp, some e)
          | none => (db2, resp.setMsg (keyMsg key), none)
  | .execute =>
    if method = ProgramCreate then
      match params.head? with
      | none => (db, resp, some .indexOutOfRange)
      | some p0 =>
        match ext.programCreate db p0.value with
        | .error e => (db, resp, some e)
        | .ok (db2, pid) =>
          (db2, (resp.setTxID pid).setTimestamp now, none)
    else
      match params.head? with
      | none => (db, resp, some .indexOutOfRange)
      | some p0 =>
        match idsToID p0.value with
        | .error e => (db, resp, some e)
        | .ok pid0 =>
          match ext.programExecute db pid0 params.tail method maxUnits with
          | .error e => (db, resp, some e)
          | .ok (db2, pid, response, balance) =>
            if response.length > 1 then (db2, resp, some .multiResponseNotSupported)
            else
              match response.head? with
              | none => (db2, resp, some .indexOutOfRange)
              | some res =>
                let resp2 := match res with
                  | some r => resp.setResponse r
                  | none => resp
                (db2, (resp2.setTxID pid).setBalance balance, none)
  | .readOnly =>
    match params.head? with
    | none => (db, resp, some .indexOutOfRange)
    | some p0 =>
      match idsToID p0.value with
      | .error e => (db, resp, some e)
      | .ok pid0 =>
        -- readonly is not charged: the budget passed is math.MaxUint64
        match ext.programExecute db pid0 params.tail method maxUint64 with
        | .error e => (db, resp, some e)
        | .ok (db2, _, response, _) =>
          if response.length > 1 then (db2, resp, some .multiResponseNotSupported)
          else
            match response.head? with
            | none => (db2, resp, some .indexOutOfRange)
            | some res =>
              let resp2 := match res with
                | some r => resp.setResponse r
                | none => resp
              (db2, resp2, none)
  | .other s => (db, resp, some (.invalidEndpoint s))

/-- `runStepFunc`: the core dispatch with the deferred
`resp.setTimestamp(time.Now().Unix())` applied on every exit path. -/
def runStepFunc (ext : Ext) (now : Nat) (db : DB) (endpoint : Endpoint)
    (maxUnits : Nat) (method : List Nat) (params : List Parameter)
    (resp : Response) : DB × Response × Option GoErr :=
  match runStepFuncCore ext now db endpoint maxUnits method params resp with
  | (db2, r, e?) => (db2, r.setTimestamp now, e?)

/-- The run-command state: the step counter (`*lastStep`), the Run Ledger
(`programIDStrMap`) and the external store. -/
structure RunState where
  lastStep : Nat
  ledger : Ledger
  db : DB

/-- `RunStep`: resolve the parameters, dispatch, fold a dispatch error into
the response, record a produced identifier into the Run Ledger at the
current index, and advance the step counter. -/
def RunStep (ext : Ext) (now : Nat) (st : RunState) (step : Step) :
    RunState × Except GoErr Response :=
  let index := st.lastStep
  match createCallParams ext st.ledger st.db step.endpoint (step.params.getD []) with
  | .error e => (st, .error e)
  | .ok params =>
    match runStepFunc ext now st.db step.endpoint step.maxUnits step.method params
        (newResponse index) with
    | (db2, r1, e?) =>
      let r2 := match e? with
        | some e => r1.setError e
        | none => r1
      match r2.getTxID with
      | some txID =>
        match idsFromString txID with
        | .error e2 => ({ st with db := db2 }, .error e2)
        | .ok pid =>
          ({ lastStep := index + 1, ledger := ((index : Int), pid) :: st.ledger,
             db := db2 }, .ok r2)
      | none =>
        ({ lastStep := index + 1, ledger := st.ledger, db := db2 }, .ok r2)

/-- `verifyEndpoint(i, step)`: the first-parameter contract per endpoint.
The Go code reads `step.Params[0]` unconditionally first; on an empty (or
nil) parameter slice that access panics, modelled as `indexOutOfRange`. -/
def verifyEndpoint (i : Nat) (step : Step) : Except GoErr Unit :=
  match (step.params.getD []).head? with
  | none => .error .indexOutOfRange
  | some p0 =>
    match step.endpoint with
    | .key =>
      if p0.type ≠ ParamType.keyEd25519 ∧ p0.type ≠ ParamType.keySecp256k1 then
        .error (.invalidStepParamType i none)
      else .ok ()
    | .readOnly =>
      if p0.type ≠ ParamType.id then
        .error (.invalidStepParamType i (some .requiredID))
      else .ok ()
    | .execute =>
      if step.method = ProgramCreate then
        if p0.type ≠ ParamType.string then
          .error (.invalidStepParamType i (some .requiredString))
        else .ok ()
      else
        if p0.type ≠ ParamType.id then
          .error (.invalidStepParamType i (some .requiredID))
        else .ok ()
    | .other s => .error (.invalidEndpoint s)

/-- `Verify`: nil step, then nil params, then the endpoint contract. -/
def Verify (lastStep : Nat) (step : Option Step) : Except GoErr Unit :=
  match step with
  | none => .error .invalidPlanNoSteps
  | some s =>
    match s.params with
    | none => .error .invalidStepNoParams
    | some _ => verifyEndpoint lastStep s

/-- Decode a length-prefixed byte field: a count, then that many bytes. -/
def decodeBytesField : List Nat → Option (List Nat × List Nat)
  | [] => none
  | n :: rest => if n ≤ rest.length then some (rest.take n, rest.drop n) else none

/-- Decode an endpoint tag. -/
def decodeEndpoint : List Nat → Option (Endpoint × List Nat)
  | 0 :: r => some (.key, r)
  | 1 :: r => some (.execute, r)
  | 2 :: r => some (.readOnly, r)
  | 3 :: r => (decodeBytesField r).map (fun p => (.other p.1, p.2))
  | _ => none

/-- Decode a parameter type tag. -/
def decodeParamType : List Nat → Option (ParamType × List Nat)
  | 0 :: r => some (.string, r)
  | 1 :: r => some (.id, r)
  | 2 :: r => some (.keyEd25519, r)
  | 3 :: r => some (.keySecp256k1, r)
  | 4 :: r => some (.uint64, r)
  | 5 :: r => some (.bool, r)
  | _ => none

/-- Decode one parameter: a type tag then a length-prefixed value. -/
def decodeParam (l : List Nat) : Option (Parameter × List Nat) := do
  let (t, r1) ← decodeParamType l
  let (v, r2) ← decodeBytesField r1
  pure ({ type := t, value := v }, r2)

/-- Decode a counted parameter sequence. -/
def decodeParams : Nat → List Nat → Option (List Parameter × List Nat)
  | 0, r => some ([], r)
  | n + 1, r => do
    let (p, r2) ← decodeParam r
    let (ps, r3) ← decodeParams n r2
    pure (p :: ps, r3)

/-- Decode a whole step: endpoint, length-prefixed method, maxUnits, then a
nil/present tag for the parameter slice; the payload must be fully consumed. -/
def decodeStep (l : List Nat) : Option Step := do
  let (ep, r1) ← decodeEndpoint l
  let (m, r2) ← decodeBytesField r1
  match r2 with
  | [] => none
  | mu :: r3 =>
    match r3 with
    | 0 :: r4 =>
      if r4 = [] then some { endpoint := ep, method := m, maxUnits := mu, params := none }
      else none
    | 1 :: cnt :: r4 =>
      match decodeParams cnt r4 with
      | some (ps, []) =>
        some { endpoint := ep, method := m, maxUnits := mu, params := some ps }
      | _ => none
    | _ => none

/-- Modelled from the spec: `unmarshalStep` parses a step payload into the
Step shape (its Go definition is not among the embedded sources), failing
with the MalformedPlan taxonomy error on an unparsable payload. -/
def unmarshalStep (b : List Nat) : Except GoErr Step :=
  match decodeStep b with
  | some s => .ok s
  | none => .error (.malformedPlan .unparsable)

/-- `Init`: choose the plan source — the inline `--step` flag when non-empty,
otherwise the `--file` flag when non-empty, otherwise the MalformedPlan
no-source error — then unmarshal the payload. -/
def Init (ext : Ext) (planStepFlag fileFlag : List Nat) : Except GoErr Step :=
  match
    (if planStepFlag.length > 0 then Except.ok planStepFlag
     else if fileFlag.length > 0 then ext.fileRead fileFlag
     else .error (.malformedPlan .noSource) : Except GoErr (List Nat)) with
  | .error e => .error e
  | .ok bytes => unmarshalStep bytes

/-! Concrete instances used by witnesses and counterexamples. -/

/-- A concrete 32-byte identifier. -/
def gid0 : GoID := ⟨List.replicate 32 0, by simp⟩

/-- A second concrete 32-byte identifier. -/
def gid1 : GoID := ⟨List.replicate 32 1, by simp⟩

/-- A trivial collaborator instance. -/
def extTriv : Ext where
  programCreate := fun db _ => .ok (db, gid0)
  programExecute := fun db _ _ _ mu => .ok (db, gid0, [some []], mu)
  statErrIsNotExist := fun _ => false
  freshKey := fun db => List.replicate 32 db.length
  fileRead := fun _ => .ok []

/-- A collaborator instance whose interpreter returns two result payloads. -/
def extTwoResp : Ext :=
  { extTriv with programExecute := fun db _ _ _ _ => .ok (db, gid0, [some [], some [1]], 5) }

/-- A collaborator instance whose interpreter returns an empty result sequence. -/
def extEmptyResp : Ext :=
  { extTriv with programExecute := fun db _ _ _ _ => .ok (db, gid0, [], 0) }

/-- All bytes are decimal digits (`'0'..'9'`). -/
def isDigitList (l : List Nat) : Bool := l.all (fun b => 48 ≤ b && b ≤ 57)

/-- The number denoted by a decimal digit-byte list. -/
def digitsVal (l : List Nat) : Nat := l.foldl (fun a b => a * 10 + (b - 48)) 0

/-- Whether a resolution outcome is the UnresolvedStepReference failure. -/
def isUnresolvedErr : Except GoErr (List Parameter) → Bool
  | .error (.unresolvedStepReference _) => true
  | _ => false

/-- A Key-endpoint step creating the named key `[97]`. -/
def keyStep : Step :=
  { endpoint := .key, method := [], maxUnits := 0,
    params := some [{ type := .keyEd25519, value := [97] }] }

/-- The initial run state: counter 0, empty ledger, empty store. -/
def runStateZero : RunState := { lastStep := 0, ledger := [], db := [] }

/-- First run of `keyStep` from the initial state. -/
def keyRun1 : RunState × Except GoErr Response := RunStep extTriv 0 runStateZero keyStep

/-- Second run of the same `keyStep`, from the state the first run left. -/
def keyRun2 : RunState × Except GoErr Response := RunStep extTriv 0 keyRun1.1 keyStep

/-- The 32-byte identifier of all fives (the program ID used in witnesses). -/
def gid5 : GoID := ⟨List.replicate 32 5, by simp⟩

/-- An Execute step calling method `[7]` on the program `gid5`. -/
def stepExec : Step :=
  { endpoint := .execute, method := [7], maxUnits := 3,
    params := some [{ type := .id, value := List.replicate 32 5 }] }

/-- A ReadOnly step calling method `[7]` on the program `gid5`. -/
def stepRO : Step :=
  { endpoint := .readOnly, method := [7], maxUnits := 3,
    params := some [{ type := .id, value := List.replicate 32 5 }] }

/-- A Key-endpoint step whose first parameter is of type KeySecp256k1. -/
def stepSecp : Step :=
  { endpoint := .key, method := [], maxUnits := 0,
    params := some [{ type := .keySecp256k1, value := [98] }] }

/-! Helper lemmas. -/

/-- Reading an all-digit byte list never fails and folds the digits. -/
theorem digitsToNatAux_of_digits (l : List Nat) (h : isDigitList l = true) :
    ∀ acc : Nat, digitsToNatAux l acc = some (l.foldl (fun a b => a * 10 + (b - 48)) acc) := by
  induction l with
  | nil => intro acc; rfl
  | cons b rest ih =>
    intro acc
    simp only [isDigitList, List.all_cons, Bool.and_eq_true, decide_eq_true_eq] at h
    obtain ⟨⟨h1, h2⟩, h3⟩ := h
    simp only [digitsToNatAux, digitVal, if_pos (And.intro h1 h2), List.foldl_cons]
    exact ih (by simpa [isDigitList] using h3) (acc * 10 + (b - 48))

/-- Cutting a true byte prefix yields the remainder. -/
theorem cutPrefixGo_append (p s : List Nat) : cutPrefixGo (p ++ s) p = some s := by
  induction p with
  | nil => cases s <;> rfl
  | cons a p ih => simp [cutPrefixGo, ih]

/-- `strconv.ParseInt(_, 10, 32)` on a non-empty digit string whose value
fits in a signed 32-bit integer yields that value. -/
theorem parseInt32_digits (ds : List Nat) (hne : ds ≠ [])
    (hdig : isDigitList ds = true) (hrange : digitsVal ds ≤ 2 ^ 31 - 1) :
    parseInt32 ds = .ok ((digitsVal ds : Nat) : Int) := by
  obtain ⟨d, rest, rfl⟩ : ∃ d rest, ds = d :: rest := by
    cases ds with
    | nil => exact absurd rfl hne
    | cons d rest => exact ⟨d, rest, rfl⟩
  have hd : 48 ≤ d ∧ d ≤ 57 := by
    have := hdig
    simp only [isDigitList, List.all_cons, Bool.and_eq_true, decide_eq_true_eq] at this
    exact this.1
  have hd45 : ¬ d = 45 := by omega
  have hd43 : ¬ d = 43 := by omega
  have hfold := digitsToNatAux_of_digits (d :: rest) hdig 0
  have hnotrange :
      ¬(((digitsVal (d :: rest) : Nat) : Int) < -(2 ^ 31) ∨
        (2 ^ 31 - 1 : Int) < ((digitsVal (d :: rest) : Nat) : Int)) := by
    push_cast
    omega
  simp only [parseInt32, if_neg hd45, if_neg hd43]
  rw [show (d :: rest).foldl (fun a b => a * 10 + (b - 48)) 0 = digitsVal (d :: rest) from rfl]
    at hfold
  simp [hfold, hnotrange]
  norm_num at hrange
  omega

/-- Dispatch never writes the response's error field (it is set by the
caller, `RunStep`, from the returned error). -/
theorem runStepFunc_err_preserved (ext : Ext) (now : Nat) (db : DB) (ep : Endpoint)
    (mu : Nat) (m : List Nat) (ps : List Parameter) (r : Response) :
    ((runStepFunc ext now db ep mu m ps r).2.1).err = r.err := by
  unfold runStepFunc runStepFuncCore
  cases ep <;>
    simp only [Response.setMsg, Response.setTimestamp, Response.setTxID,
      Response.setBalance, Response.setResponse] <;>
    (repeat' split) <;>
    simp [Response.setMsg, Response.setTimestamp, Response.setTxID,
      Response.setBalance, Response.setResponse]

/-! Claim theorems. -/

/-- C2: the claim says validation returns InvalidStep for empty *or* absent
params.  The code only catches the absent (nil) case; an empty non-nil
parameter slice passes the nil check and `verifyEndpoint` then reads
`step.Params[0]`, an index-out-of-range panic — not an InvalidStep error. -/
theorem c2_empty_params_panic :
    Verify 0 (some { endpoint := .execute, method := [], maxUnits := 0, params := some [] }) =
      .error .indexOutOfRange ∧
    Verify 0 (some { endpoint := .execute, method := [], maxUnits := 0, params := none }) =
      .error .invalidStepNoParams :=
  ⟨rfl, rfl⟩

/-- C7: running the same Key-creation step twice both succeeds, but the two
runs report different derived addresses: the second run's parameter
resolution rewrites the key name to the first key's derived address before
dispatch, so key creation runs under that address as a name and creates a
fresh key — the idempotence the claim states does not hold. -/
theorem c7_key_rerun_divergence :
    keyRun1.2 =
      .ok { id := 0, msg := some (keyMsg (List.replicate 32 0)), timestamp := some 0 } ∧
    keyRun2.2 =
      .ok { id := 1, msg := some (keyMsg (List.replicate 32 1)), timestamp := some 0 } ∧
    keyMsg (List.replicate 32 0) ≠ keyMsg (List.replicate 32 1) :=
  ⟨rfl, rfl, by decide⟩

/-- C8 counterexample: supplying both plan sources does not fail — the
inline plan silently takes precedence, so "exactly one source must be
supplied" is not enforced. -/
theorem c8_counterexample :
    0 < ([1, 0, 0, 0] : List Nat).length ∧ 0 < ([9] : List Nat).length ∧
    Init extTriv [1, 0, 0, 0] [9] =
      .ok { endpoint := .execute, method := [], maxUnits := 0, params := none } :=
  ⟨by decide, by decide, rfl⟩

/-- C8 (amended): Init fails with the MalformedPlan no-source error when
neither source is supplied, and with the MalformedPlan unparsable error when
the chosen payload (inline, or read from the file) does not parse into the
Step shape; at least one source must be supplied, and when both are, the
inline plan takes precedence. -/
theorem c8_plan_source_loading :
    (∀ ext : Ext, Init ext [] [] = .error (.malformedPlan .noSource)) ∧
    (∀ (ext : Ext) (p f : List Nat), 0 < p.length → decodeStep p = none →
      Init ext p f = .error (.malformedPlan .unparsable)) ∧
    (∀ (ext : Ext) (f b : List Nat), 0 < f.length → ext.fileRead f = .ok b →
      decodeStep b = none → Init ext [] f = .error (.malformedPlan .unparsable)) ∧
    (∀ (ext : Ext) (p f : List Nat), 0 < p.length → Init ext p f = unmarshalStep p) := by
  refine ⟨fun ext => rfl, ?_, ?_, ?_⟩
  · intro ext p f hp hd
    simp only [Init, if_pos hp, unmarshalStep, hd]
  · intro ext f b hf hfr hd
    simp only [Init, List.length_nil, lt_irrefl, if_false, if_pos hf, hfr,
      unmarshalStep, hd]
  · intro ext p f hp
    simp only [Init, if_pos hp]

/-- C8 witness: the amended behaviors at concrete inputs. -/
theorem c8_witness :
    Init extTriv [] [] = .error (.malformedPlan .noSource) ∧
    Init extTriv [99] [] = .error (.malformedPlan .unparsable) ∧
    Init extTriv [] [99] = .error (.malformedPlan .unparsable) ∧
    Init extTriv [1, 0, 0, 0] [5] = unmarshalStep [1, 0, 0, 0] :=
  ⟨c8_plan_source_loading.1 extTriv,
   c8_plan_source_loading.2.1 extTriv [99] [] (by decide) rfl,
   c8_plan_source_loading.2.2.1 extTriv [99] [] (by decide) rfl rfl,
   c8_plan_source_loading.2.2.2 extTriv [1, 0, 0, 0] [5] (by decide)⟩

/-- C1 counterexample: the value `step_2147483648` reads as `step_` followed
by the decimal integer 2147483648, and the (empty) Run Ledger has no entry
at that index, yet resolution fails with a ParseInt range error — not with
UnresolvedStepReference — because the code parses with a 32-bit bound. -/
theorem c1_counterexample :
    createCallParams extTriv [] [] .execute
        [{ type := .id,
           value := [115, 116, 101, 112, 95, 50, 49, 52, 55, 52, 56, 51, 54, 52, 56] }] =
      .error (.parseIntErr .rangeE) ∧
    isUnresolvedErr (createCallParams extTriv [] [] .execute
        [{ type := .id,
           value := [115, 116, 101, 112, 95, 50, 49, 52, 55, 52, 56, 51, 54, 52, 56] }]) =
      false :=
  ⟨rfl, rfl⟩

/-- C1 (amended): for a String- or ID-typed parameter whose value is `step_`
followed by decimal digits denoting N, with N representable in a signed
32-bit integer: when the Run Ledger has an entry at index N the parameter
resolves to exactly that identifier's bytes; when it has none, resolution
fails with UnresolvedStepReference and no resolved list is produced.
(Values of N beyond the 32-bit range instead fail with a parse error, per
the counterexample.) -/
theorem c1_step_reference_resolution (ext : Ext) (ledger : Ledger) (db : DB)
    (ep : Endpoint) (rest : List Parameter) (t : ParamType) (ds : List Nat)
    (ht : t = ParamType.string ∨ t = ParamType.id)
    (hne : ds ≠ []) (hdig : isDigitList ds = true)
    (hrange : digitsVal ds ≤ 2 ^ 31 - 1) :
    (∀ gid : GoID, ledger.lookup ((digitsVal ds : Nat) : Int) = some gid →
      createCallParams ext ledger db ep
          ({ type := t, value := stepPrefixBytes ++ ds } :: rest) =
        (createCallParams ext ledger db ep rest).map
          (fun cp => { type := t, value := gid.val } :: cp)) ∧
    (ledger.lookup ((digitsVal ds : Nat) : Int) = none →
      createCallParams ext ledger db ep
          ({ type := t, value := stepPrefixBytes ++ ds } :: rest) =
        .error (.unresolvedStepReference (stepPrefixBytes ++ ds))) := by
  have hcut : cutPrefixGo (stepPrefixBytes ++ ds) stepPrefixBytes = some ds :=
    cutPrefixGo_append stepPrefixBytes ds
  have hparse := parseInt32_digits ds hne hdig hrange
  constructor
  · intro gid hlook
    rcases ht with rfl | rfl <;>
      simp only [createCallParams, hcut, hparse, hlook]
  · intro hlook
    rcases ht with rfl | rfl <;>
      simp only [createCallParams, hcut, hparse, hlook]

/-- C1 witness: `step_3` resolves against a ledger with an entry at 3, and
fails with UnresolvedStepReference against an empty ledger. -/
theorem c1_witness :
    createCallParams extTriv [((3 : Int), gid0)] [] .execute
        [{ type := .id, value := stepPrefixBytes ++ [51] }] =
      .ok [{ type := ParamType.id, value := gid0.val }] ∧
    createCallParams extTriv [] [] .execute
        [{ type := .id, value := stepPrefixBytes ++ [51] }] =
      .error (.unresolvedStepReference (stepPrefixBytes ++ [51])) := by
  constructor
  · have h := (c1_step_reference_resolution extTriv [((3 : Int), gid0)] [] .execute []
      ParamType.id [51] (Or.inr rfl) (by decide) (by decide) (by decide)).1 gid0 (by decide)
    rw [h]; rfl
  · exact (c1_step_reference_resolution extTriv [] [] .execute []
      ParamType.id [51] (Or.inr rfl) (by decide) (by decide) (by decide)).2 rfl

/-- C10: a Key-endpoint step whose first parameter has type KeySecp256k1
passes validation, but parameter resolution always fails with
InvalidParamType (that type has no resolution branch), so such a step never
reaches dispatch: `RunStep` returns the error with the run state unchanged. -/
theorem c10_secp256k1_unreachable (ext : Ext) (now : Nat) (st : RunState)
    (step : Step) (v : List Nat) (rest : List Parameter)
    (he : step.endpoint = .key)
    (hp : step.params = some ({ type := .keySecp256k1, value := v } :: rest)) :
    Verify st.lastStep (some step) = .ok () ∧
    RunStep ext now st step = (st, .error (.invalidParamType ParamType.keySecp256k1)) := by
  constructor
  · simp [Verify, hp, verifyEndpoint, he]
  · simp [RunStep, hp, he, createCallParams]

/-- C10 witness: the concrete KeySecp256k1 Key step. -/
theorem c10_witness :
    Verify runStateZero.lastStep (some stepSecp) = .ok () ∧
    RunStep extTriv 0 runStateZero stepSecp =
      (runStateZero, .error (.invalidParamType ParamType.keySecp256k1)) :=
  c10_secp256k1_unreachable extTriv 0 runStateZero stepSecp [98] [] rfl rfl

/-- C3: once validation and parameter resolution have succeeded, `RunStep`
advances the step counter by exactly one whatever the dispatch outcome, and
returns an ok Response whose error field is exactly the dispatch error
(execution failure is embedded, not propagated). -/
theorem c3_increment_and_embedded_error (ext : Ext) (now : Nat) (st : RunState)
    (step : Step) (ps : List Parameter)
    (hv : Verify st.lastStep (some step) = .ok ())
    (hp : createCallParams ext st.ledger st.db step.endpoint (step.params.getD []) = .ok ps) :
    (RunStep ext now st step).1.lastStep = st.lastStep + 1 ∧
    ∃ r : Response, (RunStep ext now st step).2 = .ok r ∧
      r.err = (runStepFunc ext now st.db step.endpoint step.maxUnits step.method ps
        (newResponse st.lastStep)).2.2 := by
  have herr := runStepFunc_err_preserved ext now st.db step.endpoint step.maxUnits
    step.method ps (newResponse st.lastStep)
  rcases hrs : runStepFunc ext now st.db step.endpoint step.maxUnits step.method ps
    (newResponse st.lastStep) with ⟨db2, r1, e?⟩
  rw [hrs] at herr
  simp only [newResponse] at herr
  cases e? with
  | some e =>
    cases htx : (r1.setError e).getTxID with
    | some t =>
      simp only [Response.setError, Response.getTxID] at htx
      refine ⟨?_, r1.setError e, ?_, ?_⟩ <;>
        simp [RunStep, hp, hrs, htx, idsFromString, Response.setError, Response.getTxID]
    | none =>
      simp only [Response.setError, Response.getTxID] at htx
      refine ⟨?_, r1.setError e, ?_, ?_⟩ <;>
        simp [RunStep, hp, hrs, htx, Response.setError, Response.getTxID]
  | none =>
    cases htx : r1.getTxID with
    | some t =>
      simp only [Response.getTxID] at htx
      refine ⟨?_, r1, ?_, ?_⟩ <;>
        simp [RunStep, hp, hrs, htx, idsFromString, Response.getTxID, herr]
    | none =>
      simp only [Response.getTxID] at htx
      refine ⟨?_, r1, ?_, ?_⟩ <;>
        simp [RunStep, hp, hrs, htx, Response.getTxID, herr]

/-- C3 witness: an Execute step through the trivial collaborators. -/
theorem c3_witness :
    (RunStep extTriv 0 runStateZero stepExec).1.lastStep = runStateZero.lastStep + 1 ∧
    ∃ r : Response, (RunStep extTriv 0 runStateZero stepExec).2 = .ok r ∧
      r.err = (runStepFunc extTriv 0 runStateZero.db stepExec.endpoint stepExec.maxUnits
        stepExec.method [{ type := ParamType.id, value := List.replicate 32 5 }]
        (newResponse runStateZero.lastStep)).2.2 :=
  c3_increment_and_embedded_error extTriv 0 runStateZero stepExec
    [{ type := ParamType.id, value := List.replicate 32 5 }] rfl rfl

/-- C4: when the interpreter returns more than one result payload, both the
Execute (non-creation) and ReadOnly dispatch paths fail with
MultiResponseUnsupported, and the step's Response carries that error with no
result payload set. -/
theorem c4_multi_response_unsupported :
    (∀ (ext : Ext) (now : Nat) (st : RunState) (step : Step) (p0 : Parameter)
        (psr : List Parameter) (pid0 : GoID) (db2 : DB) (xid : GoID)
        (resps : List (Option (List Nat))) (bal : Nat),
        step.endpoint = .execute → step.method ≠ ProgramCreate →
        createCallParams ext st.ledger st.db step.endpoint (step.params.getD []) =
          .ok (p0 :: psr) →
        idsToID p0.value = .ok pid0 →
        ext.programExecute st.db pid0 psr step.method step.maxUnits =
          .ok (db2, xid, resps, bal) →
        resps.length > 1 →
        RunStep ext now st step =
          ({ lastStep := st.lastStep + 1, ledger := st.ledger, db := db2 },
           .ok { id := st.lastStep, msg := none, txID := none, result := none,
                 balance := none, err := some .multiResponseNotSupported,
                 timestamp := some now })) ∧
    (∀ (ext : Ext) (now : Nat) (st : RunState) (step : Step) (p0 : Parameter)
        (psr : List Parameter) (pid0 : GoID) (db2 : DB) (xid : GoID)
        (resps : List (Option (List Nat))) (bal : Nat),
        step.endpoint = .readOnly →
        createCallParams ext st.ledger st.db step.endpoint (step.params.getD []) =
          .ok (p0 :: psr) →
        idsToID p0.value = .ok pid0 →
        ext.programExecute st.db pid0 psr step.method maxUint64 =
          .ok (db2, xid, resps, bal) →
        resps.length > 1 →
        RunStep ext now st step =
          ({ lastStep := st.lastStep + 1, ledger := st.ledger, db := db2 },
           .ok { id := st.lastStep, msg := none, txID := none, result := none,
                 balance := none, err := some .multiResponseNotSupported,
                 timestamp := some now })) := by
  constructor
  · intro ext now st step p0 psr pid0 db2 xid resps bal he hm hcp hid hex hlen
    rw [he] at hcp
    simp [RunStep, he, hcp, runStepFunc, runStepFuncCore, if_neg hm, hid, hex,
      if_pos hlen, newResponse, Response.setTimestamp, Response.setError,
      Response.getTxID]
  · intro ext now st step p0 psr pid0 db2 xid resps bal he hcp hid hex hlen
    rw [he] at hcp
    simp [RunStep, he, hcp, runStepFunc, runStepFuncCore, hid, hex,
      if_pos hlen, newResponse, Response.setTimestamp, Response.setError,
      Response.getTxID]

/-- C4 witness: an interpreter returning two payloads, on the Execute and
ReadOnly steps. -/
theorem c4_witness :
    RunStep extTwoResp 0 runStateZero stepExec =
      ({ lastStep := 1, ledger := [], db := [] },
       .ok { id := 0, msg := none, txID := none, result := none, balance := none,
             err := some .multiResponseNotSupported, timestamp := some 0 }) ∧
    RunStep extTwoResp 0 runStateZero stepRO =
      ({ lastStep := 1, ledger := [], db := [] },
       .ok { id := 0, msg := none, txID := none, result := none, balance := none,
             err := some .multiResponseNotSupported, timestamp := some 0 }) :=
  ⟨c4_multi_response_unsupported.1 extTwoResp 0 runStateZero stepExec
      { type := ParamType.id, value := List.replicate 32 5 } [] gid5 [] gid0
      [some [], some [1]] 5 rfl (by decide) rfl rfl rfl (by decide),
   c4_multi_response_unsupported.2 extTwoResp 0 runStateZero stepRO
      { type := ParamType.id, value := List.replicate 32 5 } [] gid5 [] gid0
      [some [], some [1]] 5 rfl rfl rfl rfl (by decide)⟩

/-- C5: ReadOnly dispatch is independent of the step's maxUnits (the budget
it passes to the interpreter is `math.MaxUint64`), and a successful ReadOnly
dispatch leaves the Response's balance unset. -/
theorem c5_readonly_budget_and_balance :
    (∀ (ext : Ext) (now : Nat) (db : DB) (mu mu' : Nat) (method : List Nat)
        (ps : List Parameter) (r : Response),
        runStepFunc ext now db .readOnly mu method ps r =
          runStepFunc ext now db .readOnly mu' method ps r) ∧
    (∀ (ext : Ext) (now : Nat) (st : RunState) (step : Step) (p0 : Parameter)
        (psr : List Parameter) (pid0 : GoID) (db2 : DB) (xid : GoID)
        (res? : Option (List Nat)) (bal : Nat),
        step.endpoint = .readOnly →
        createCallParams ext st.ledger st.db step.endpoint (step.params.getD []) =
          .ok (p0 :: psr) →
        idsToID p0.value = .ok pid0 →
        ext.programExecute st.db pid0 psr step.method maxUint64 =
          .ok (db2, xid, [res?], bal) →
        RunStep ext now st step =
          ({ lastStep := st.lastStep + 1, ledger := st.ledger, db := db2 },
           .ok { id := st.lastStep, msg := none, txID := none, result := res?,
                 balance := none, err := none, timestamp := some now })) := by
  constructor
  · intro ext now db mu mu' method ps r
    rfl
  · intro ext now st step p0 psr pid0 db2 xid res? bal he hcp hid hex
    rw [he] at hcp
    cases res? <;>
      simp [RunStep, he, hcp, runStepFunc, runStepFuncCore, hid, hex,
        newResponse, Response.setTimestamp, Response.setResponse, Response.getTxID]

/-- C5 witness: a successful ReadOnly dispatch through the trivial
collaborators (whose interpreter reports the budget it was passed as the
balance, showing the `maxUnits` of the step is not what is passed). -/
theorem c5_witness :
    RunStep extTriv 0 runStateZero stepRO =
      ({ lastStep := 1, ledger := [], db := [] },
       .ok { id := 0, msg := none, txID := none, result := some [],
             balance := none, err := none, timestamp := some 0 }) :=
  c5_readonly_budget_and_balance.2 extTriv 0 runStateZero stepRO
    { type := ParamType.id, value := List.replicate 32 5 } [] gid5 [] gid0
    (some []) maxUint64 rfl rfl rfl rfl

/-- C9: the dispatcher reads the interpreter's result at index 0 whenever
the result count is not above one, so an empty result sequence makes the
index-out-of-range branch reachable on both the Execute (non-creation) and
ReadOnly paths — a non-empty result is an unstated precondition. -/
theorem c9_empty_interpreter_result :
    (∀ (ext : Ext) (now : Nat) (db : DB) (mu : Nat) (method : List Nat)
        (p0 : Parameter) (psr : List Parameter) (r : Response) (pid0 : GoID)
        (db2 : DB) (xid : GoID) (bal : Nat),
        method ≠ ProgramCreate → idsToID p0.value = .ok pid0 →
        ext.programExecute db pid0 psr method mu = .ok (db2, xid, [], bal) →
        runStepFunc ext now db .execute mu method (p0 :: psr) r =
          (db2, r.setTimestamp now, some .indexOutOfRange)) ∧
    (∀ (ext : Ext) (now : Nat) (db : DB) (mu : Nat) (method : List Nat)
        (p0 : Parameter) (psr : List Parameter) (r : Response) (pid0 : GoID)
        (db2 : DB) (xid : GoID) (bal : Nat),
        idsToID p0.value = .ok pid0 →
        ext.programExecute db pid0 psr method maxUint64 = .ok (db2, xid, [], bal) →
        runStepFunc ext now db .readOnly mu method (p0 :: psr) r =
          (db2, r.setTimestamp now, some .indexOutOfRange)) := by
  constructor
  · intro ext now db mu method p0 psr r pid0 db2 xid bal hm hid hex
    simp [runStepFunc, runStepFuncCore, if_neg hm, hid, hex]
  · intro ext now db mu method p0 psr r pid0 db2 xid bal hid hex
    simp [runStepFunc, runStepFuncCore, hid, hex]

/-- C9 witness: the interpreter returning an empty result sequence. -/
theorem c9_witness :
    runStepFunc extEmptyResp 0 [] .execute 3 [7]
        [{ type := ParamType.id, value := List.replicate 32 5 }] (newResponse 0) =
      ([], (newResponse 0).setTimestamp 0, some .indexOutOfRange) ∧
    runStepFunc extEmptyResp 0 [] .readOnly 3 [7]
        [{ type := ParamType.id, value := List.replicate 32 5 }] (newResponse 0) =
      ([], (newResponse 0).setTimestamp 0, some .indexOutOfRange) :=
  ⟨c9_empty_interpreter_result.1 extEmptyResp 0 [] 3 [7]
      { type := ParamType.id, value := List.replicate 32 5 } [] (newResponse 0)
      gid5 [] gid0 0 (by decide) rfl rfl,
   c9_empty_interpreter_result.2 extEmptyResp 0 [] 3 [7]
      { type := ParamType.id, value := List.replicate 32 5 } [] (newResponse 0)
      gid5 [] gid0 0 rfl rfl⟩

/-- C6: a KeyEd25519 parameter holding a key name resolves as follows — a
stored public key is replaced by the fixed-length derived address (tag byte
0 followed by the raw 32-byte key); a missing key on a non-Key endpoint
fails with NamedKeyNotFound; a missing key on the Key endpoint passes the
name through unchanged. -/
theorem c6_keyed25519_resolution (ext : Ext) (ledger : Ledger) (db : DB)
    (ep : Endpoint) (rest : List Parameter) (name : List Nat) :
    (∀ pk : PubKey, db.lookup name = some pk → pk.length = 32 →
      createCallParams ext ledger db ep
          ({ type := .keyEd25519, value := name } :: rest) =
        (createCallParams ext ledger db ep rest).map
          (fun cp => { type := ParamType.keyEd25519, value := 0 :: pk } :: cp) ∧
      (0 :: pk).length = AddressLen) ∧
    (db.lookup name = none → ep ≠ Endpoint.key →
      createCallParams ext ledger db ep
          ({ type := .keyEd25519, value := name } :: rest) =
        .error (.namedKeyNotFound name)) ∧
    (db.lookup name = none → ep = Endpoint.key →
      createCallParams ext ledger db ep
          ({ type := .keyEd25519, value := name } :: rest) =
        (createCallParams ext ledger db ep rest).map
          (fun cp => { type := ParamType.keyEd25519, value := name } :: cp)) := by
  refine ⟨?_, ?_, ?_⟩
  · intro pk hlook h32
    have haddr : goAddress pk = 0 :: pk := by
      simp [goAddress, AddressLen, takeFill, List.take_of_length_le h32.le, h32]
    constructor
    · simp [createCallParams, storageGetPublicKey, hlook, haddr]
    · simp [AddressLen, h32]
  · intro hlook hep
    simp only [createCallParams, storageGetPublicKey, hlook, Option.isNone_none,
      true_and, if_pos hep]
  · intro hlook hep
    subst hep
    simp only [createCallParams, storageGetPublicKey, hlook, Option.isNone_none,
      true_and, ne_eq, not_true_eq_false, if_false]

/-- C6 witness: a store holding name `[97]`, plus the two missing-key cases. -/
theorem c6_witness :
    createCallParams extTriv [] [([97], List.replicate 32 9)] .execute
        [{ type := .keyEd25519, value := [97] }] =
      .ok [{ type := ParamType.keyEd25519, value := 0 :: List.replicate 32 9 }] ∧
    createCallParams extTriv [] [] .execute
        [{ type := .keyEd25519, value := [97] }] =
      .error (.namedKeyNotFound [97]) ∧
    createCallParams extTriv [] [] .key
        [{ type := .keyEd25519, value := [97] }] =
      .ok [{ type := ParamType.keyEd25519, value := [97] }] := by
  refine ⟨?_, ?_, ?_⟩
  · have h := ((c6_keyed25519_resolution extTriv [] [([97], List.replicate 32 9)]
      .execute [] [97]).1 (List.replicate 32 9) (by decide) (by decide)).1
    rw [h]; rfl
  · exact (c6_keyed25519_resolution extTriv [] [] .execute [] [97]).2.1 rfl (by decide)
  · have h := (c6_keyed25519_resolution extTriv [] [] .key [] [97]).2.2 rfl rfl
    rw [h]; rfl

end PlanSim
